/-
A verification development for plone.app.blocks (transform.py): a shallow
embedding of the response post-processing transform pipeline, followed by
theorems about its stages and their coordination flags.

Modelling conventions:
- Byte strings are lists of natural numbers (byte values).
- The per-request state (the flag store, the inbound edge header, the
  response headers and the error log) is an explicit record threaded
  through every stage; Python's in-place mutation of the request becomes
  explicit state passing, and each transform entry point returns the pair
  of its optional result ("return" vs falling off the end, which yields
  None) and the updated request state.
- External collaborators (panel.merge, tiles.renderTiles,
  esi.substituteESILinks, getHTMLSerializer's parser, the tree
  serializers, Python's str() on non-string values, safe_bytes on text,
  and per-character encoding) are uninterpreted function parameters
  gathered in a record; the pipeline is specified for every instantiation
  of that record.
- Python string methods that the guards use (startswith, lower, the
  substring test "in") are modelled character-wise on String.data, which
  coincides with Python's behaviour on the ASCII data involved.
-/

import Mathlib

set_option linter.unusedVariables false

namespace PloneBlocks

/-- Byte strings, as lists of byte values. -/
abbrev Bytes := List Nat

/-- Left-to-right, non-overlapping replacement of every occurrence of the
pattern p by r, as performed by Python's re.sub with a literal pattern.
The recursion is driven by a fuel argument so that the function is
structurally recursive (and hence evaluates by kernel reduction); when the
pattern matches, the scan resumes after the matched occurrence. -/
def replaceAllGo (p r : Bytes) : Nat → Bytes → Bytes
  | _, [] => []
  | 0, a :: s => a :: s
  | fuel+1, a :: s =>
      if p.isPrefixOf (a :: s) then r ++ replaceAllGo p r fuel ((a :: s).drop p.length)
      else a :: replaceAllGo p r fuel s

/-- re.sub(pattern, replacement, s) for a literal pattern: the fuel
s.length always suffices because every step consumes at least one input
element (the pattern occurrences replaced are nonempty in this file). -/
def replaceAll (p r s : Bytes) : Bytes := replaceAllGo p r s.length s

/-- The bytes of the literal b"&#13;" (an encoded carriage return). -/
def crBytes : Bytes := [38, 35, 49, 51, 59]

/-- The bytes of the literal b"&#13;\n" (encoded carriage return plus linefeed). -/
def crlfBytes : Bytes := [38, 35, 49, 51, 59, 10]

/-- The bytes of the replacement b"\n". -/
def newlineBytes : Bytes := [10]

/-- The bytes of the literal b"<![CDATA[". -/
def cdataBytes : Bytes := [60, 33, 91, 67, 68, 65, 84, 65, 91]

/-- Products.CMFPlone.utils.safe_bytes on data that is already bytes: the
identity (it only converts text to bytes). -/
def safe_bytes (item : Bytes) : Bytes := item

/-- One chunk's normalization in ParseXML.transformIterable:
re.sub(b"&#13;", b"\n", re.sub(b"&#13;\n", b"\n", safe_bytes(item))). -/
def normalizeChunk (item : Bytes) : Bytes :=
  replaceAll crBytes newlineBytes (replaceAll crlfBytes newlineBytes (safe_bytes item))

/-- ASCII lowering of one character code, as in Python str.lower on ASCII. -/
def lowerCode (n : Nat) : Nat := if 65 ≤ n ∧ n ≤ 90 then n + 32 else n

/-- Python s.lower(), modelled character-wise on the code points (adequate
here: the pipeline only compares the lowered value against "true"). -/
def pyLower (s : String) : List Nat := s.data.map (fun c => lowerCode c.toNat)

/-- Python s.startswith(pre), modelled as a character-list test. -/
def pyStartsWith (s pre : String) : Bool := pre.data.isPrefixOf s.data

/-- Python "sub in s" for strings, modelled as a character-list test. -/
def pyContains (s sub : String) : Bool := decide (sub.data <:+: s.data)

/-- The response side of the request state: the two inbound-relevant
response headers the guards read, and the outbound X-Esi header the
Edge-Directive stage may set. -/
structure Response where
  contentType : Option String
  contentEncoding : Option String
  xEsi : Option String
deriving DecidableEq

/-- The per-request state: the three coordination flags of the flag store
(request.get/set with default False), the inbound edge header
(request.getHeader(ESI_HEADER, "false")), the response, and the logger's
accumulated error messages. -/
structure Request where
  disabled : Bool
  enabled : Bool
  merged : Bool
  esiHeader : Option String
  response : Response
  log : List String
deriving DecidableEq

/-- lxml docinfo: the document type declaration ("" when absent, which is
falsy in Python). -/
structure DocInfo where
  doctype : String
deriving DecidableEq

/-- An lxml tree, kept abstract: its docinfo (read by MergePanels) plus an
opaque payload standing for the parsed document. -/
structure Tree where
  docinfo : DocInfo
  payload : Bytes
deriving DecidableEq

/-- The serialization strategy of an XMLSerializer: etree.tostring
(XML-style, the default installed by getHTMLSerializer) or html.tostring
(HTML-style). -/
inductive SerStrategy where
  | xml
  | htmlStyle
deriving DecidableEq

/-- repoze.xmliter XMLSerializer: a tree together with its serialization
strategy. -/
structure XMLSer where
  tree : Tree
  serializer : SerStrategy
deriving DecidableEq

/-- The document representation flowing through the chain: an iterable of
byte chunks (unparsed), an XMLSerializer (parsed), or a plain string (the
output of ESIRender.transformIterable). -/
inductive DocRepr where
  | chunks (items : List Bytes)
  | ser (x : XMLSer)
  | str (s : String)
deriving DecidableEq

/-- The external collaborators, uninterpreted: the pipeline's behaviour is
specified for every instantiation of this record.
- getHTMLSerializer: the parse of repoze.xmliter.utils.getHTMLSerializer
  (arguments: pretty_print, encoding, the chunk iterable); an error value
  stands for the AttributeError/TypeError/etree.ParseError cases.
- merge: plone.app.blocks.panel.merge (None = no layout applicable).
- renderTiles: plone.app.blocks.tiles.renderTiles.
- substituteESILinksStr / substituteESILinksBytes: plone.tiles
  esi.substituteESILinks on a string and on a list of byte strings.
- etreeTostring / htmlTostring: serialization of a tree to text by the two
  strategies (used by Python str() on an XMLSerializer).
- reprChunks: Python str() of a list object of byte strings.
- encodeChar: per-character encoding for str.encode; none = the character
  is not representable in the target encoding.
- safeBytesStr: Products.CMFPlone.utils.safe_bytes on text. -/
structure Collab where
  getHTMLSerializer : Bool → String → List Bytes → Except String Tree
  merge : Request → Tree → Option Tree
  renderTiles : Request → Tree → Tree
  substituteESILinksStr : String → String
  substituteESILinksBytes : List Bytes → Bytes
  etreeTostring : Tree → String
  htmlTostring : Tree → String
  reprChunks : List Bytes → String
  encodeChar : String → Char → Option Bytes
  safeBytesStr : String → Bytes

/-- The compressive Content-Encoding values ParseXML refuses to touch:
the tuple ("zip", "deflate", "compress") of transform.py. -/
def compressiveEncodings : List String := ["zip", "deflate", "compress"]

/-- The guard "contentEncoding and contentEncoding in (zip, deflate,
compress)": an absent (or empty, hence falsy) header is not compressive. -/
def isCompressive (contentEncoding : Option String) : Bool :=
  match contentEncoding with
  | none => false
  | some ce => !(ce == "") && compressiveEncodings.contains ce

/-- The chunk list ParseXML builds before parsing: every non-empty chunk,
normalized (the comprehension over "result" with its "if item" filter). -/
def parseIterable (result : List Bytes) : List Bytes :=
  (result.filter (fun item => !item.isEmpty)).map normalizeChunk

namespace DisableParsing

/-- DisableParsing.transformBytes: set the disabled flag, return None. -/
def transformBytes (req : Request) (result : Bytes) (encoding : String) :
    Option Bytes × Request :=
  (none, { req with disabled := true })

/-- DisableParsing.transformUnicode: set the disabled flag, return None. -/
def transformUnicode (req : Request) (result : String) (encoding : String) :
    Option String × Request :=
  (none, { req with disabled := true })

/-- DisableParsing.transformIterable: set the disabled flag, return None. -/
def transformIterable (req : Request) (result : DocRepr) (encoding : String) :
    Option DocRepr × Request :=
  (none, { req with disabled := true })

end DisableParsing

namespace ParseXML

/-- ParseXML.transformIterable: guarded by the disabled flag, the
Content-Type response header (must start with "text/html") and the
Content-Encoding response header (must not be compressive); then the
non-empty chunks are normalized and handed to getHTMLSerializer; on
success the serializer defaults to XML-style, switched to HTML-style when
some normalized chunk contains b"<![CDATA[", the enabled flag is set and
the serializer is returned; on a parse failure the error is logged and
None is returned. -/
def transformIterable (c : Collab) (pretty_print : Bool) (req : Request)
    (result : List Bytes) (encoding : String) : Option XMLSer × Request :=
  if req.disabled then (none, req) else
  match req.response.contentType with
  | none => (none, req)
  | some content_type =>
    if !pyStartsWith content_type "text/html" then (none, req) else
    if isCompressive req.response.contentEncoding then (none, req) else
    let iterable := parseIterable result
    match c.getHTMLSerializer pretty_print encoding iterable with
    | Except.ok tree =>
        let x : XMLSer :=
          if iterable.any (fun item => decide (cdataBytes <:+: item)) then
            { tree := tree, serializer := SerStrategy.htmlStyle }
          else
            { tree := tree, serializer := SerStrategy.xml }
        (some x, { req with enabled := true })
    | Except.error e => (none, { req with log := req.log ++ [e] })

/-- ParseXML.transformBytes delegates to transformIterable on [result]. -/
def transformBytes (c : Collab) (pretty_print : Bool) (req : Request)
    (result : Bytes) (encoding : String) : Option XMLSer × Request :=
  transformIterable c pretty_print req [result] encoding

/-- ParseXML.transformUnicode delegates to transformIterable on [result];
the text chunk passes through safe_bytes (safeBytesStr here) inside the
comprehension, which commutes with the delegation because safe_bytes maps
exactly the empty (falsy) text to the empty (falsy) byte string. -/
def transformUnicode (c : Collab) (pretty_print : Bool) (req : Request)
    (result : String) (encoding : String) : Option XMLSer × Request :=
  transformIterable c pretty_print req [c.safeBytesStr result] encoding

end ParseXML

namespace MergePanels

/-- MergePanels.transformBytes: unconditionally None. -/
def transformBytes (c : Collab) (req : Request) (result : Bytes) (encoding : String) :
    Option Bytes × Request :=
  (none, req)

/-- MergePanels.transformUnicode: unconditionally None. -/
def transformUnicode (c : Collab) (req : Request) (result : String) (encoding : String) :
    Option String × Request :=
  (none, req)

/-- MergePanels.transformIterable: requires the enabled flag and an
XMLSerializer input; delegates to panel.merge; on the None sentinel it is
a no-op, otherwise it sets the merged flag, installs the merged tree, and
switches to HTML-style serialization when the new tree's doctype exists
and does not contain "XHTML". -/
def transformIterable (c : Collab) (req : Request) (result : DocRepr) (encoding : String) :
    Option DocRepr × Request :=
  if !req.enabled then (none, req) else
  match result with
  | DocRepr.ser x =>
    match c.merge req x.tree with
    | none => (none, req)
    | some tree =>
      let req2 := { req with merged := true }
      let x2 : XMLSer := { x with tree := tree }
      if !(x2.tree.docinfo.doctype == "") &&
          !pyContains x2.tree.docinfo.doctype "XHTML" then
        (some (DocRepr.ser { x2 with serializer := SerStrategy.htmlStyle }), req2)
      else
        (some (DocRepr.ser x2), req2)
  | _ => (none, req)

end MergePanels

namespace IncludeTiles

/-- IncludeTiles.transformBytes: unconditionally None. -/
def transformBytes (c : Collab) (req : Request) (result : Bytes) (encoding : String) :
    Option Bytes × Request :=
  (none, req)

/-- IncludeTiles.transformUnicode: unconditionally None. -/
def transformUnicode (c : Collab) (req : Request) (result : String) (encoding : String) :
    Option String × Request :=
  (none, req)

/-- IncludeTiles.transformIterable: requires the enabled flag and an
XMLSerializer input; replaces the tree by tiles.renderTiles of it and
returns the serializer (the serialization strategy is untouched). -/
def transformIterable (c : Collab) (req : Request) (result : DocRepr) (encoding : String) :
    Option DocRepr × Request :=
  if !req.enabled then (none, req) else
  match result with
  | DocRepr.ser x => (some (DocRepr.ser { x with tree := c.renderTiles req x.tree }), req)
  | _ => (none, req)

end IncludeTiles

/-- Python str() of a document representation, as ESIRender's
"".join(str(result)) computes it (joining the characters of a string is
that string): serialization for an XMLSerializer via its current
strategy, Python's list repr for a chunk list, identity on a string. -/
def pyStr (c : Collab) (r : DocRepr) : String :=
  match r with
  | DocRepr.chunks items => c.reprChunks items
  | DocRepr.ser x =>
    match x.serializer with
    | SerStrategy.xml => c.etreeTostring x.tree
    | SerStrategy.htmlStyle => c.htmlTostring x.tree
  | DocRepr.str s => s

namespace ESIRender

/-- ESIRender.transformBytes: no-op unless the edge header lowers to
"true"; otherwise substitute ESI links on the one-chunk list. -/
def transformBytes (c : Collab) (req : Request) (result : Bytes) (encoding : String) :
    Option Bytes × Request :=
  if pyLower (req.esiHeader.getD "false") ≠ pyLower "true" then (none, req)
  else (some (c.substituteESILinksBytes [result]), req)

/-- Python result.encode(encoding, "ignore"): each character encodes to
its byte sequence, and characters the target encoding cannot represent
(encodeChar = none) are silently dropped instead of raising. -/
def encodeIgnore (c : Collab) (encoding : String) (s : String) : Bytes :=
  (s.data.map (fun ch => (c.encodeChar encoding ch).getD [])).flatten

/-- ESIRender.transformUnicode: no-op unless the edge header lowers to
"true"; otherwise substitute ESI links on the one-chunk list holding the
text encoded with error mode "ignore". -/
def transformUnicode (c : Collab) (req : Request) (result : String) (encoding : String) :
    Option Bytes × Request :=
  if pyLower (req.esiHeader.getD "false") ≠ pyLower "true" then (none, req)
  else (some (c.substituteESILinksBytes [encodeIgnore c encoding result]), req)

/-- ESIRender.transformIterable: no-op unless the edge header lowers to
"true"; otherwise flatten the representation to a string, substitute ESI
links, set the X-Esi response header to "1" exactly when the substitution
changed the string, and return the substituted string. -/
def transformIterable (c : Collab) (req : Request) (result : DocRepr) (encoding : String) :
    Option String × Request :=
  if pyLower (req.esiHeader.getD "false") ≠ pyLower "true" then (none, req)
  else
    let result2 := pyStr c result
    let transformed := c.substituteESILinksStr result2
    if transformed ≠ result2 then
      (some transformed, { req with response := { req.response with xEsi := some "1" } })
    else
      (some transformed, req)

end ESIRender

/-- Modelled from the spec: the Stage Runner / Chain of section 4.1 (the
plone.transformchain machinery, which is not part of this repository's
source): the four stages of this package are invoked in ascending
priority order (ParseXML 8000, MergePanels 8100, IncludeTiles 8500,
ESIRender 9900) on an iterable input; a stage returning None leaves the
current representation unchanged, a stage returning a representation
replaces it for the later stages, and the final representation together
with the final request state is the chain's output. -/
def runChain (c : Collab) (pretty_print : Bool) (req : Request)
    (input : List Bytes) (encoding : String) : DocRepr × Request :=
  let p1 := ParseXML.transformIterable c pretty_print req input encoding
  let r1 : DocRepr :=
    match p1.1 with
    | some x => DocRepr.ser x
    | none => DocRepr.chunks input
  let p2 := MergePanels.transformIterable c p1.2 r1 encoding
  let r2 := p2.1.getD r1
  let p3 := IncludeTiles.transformIterable c p2.2 r2 encoding
  let r3 := p3.1.getD r2
  let p4 := ESIRender.transformIterable c p3.2 r3 encoding
  let r4 : DocRepr :=
    match p4.1 with
    | some s => DocRepr.str s
    | none => r3
  (r4, p4.2)

/-- Flag order between two request states: no flag falls from true back
to false. -/
def flagLe (r r2 : Request) : Prop :=
  r.disabled ≤ r2.disabled ∧ r.enabled ≤ r2.enabled ∧ r.merged ≤ r2.merged

/-- A concrete instantiation of the collaborators, used to evaluate the
pipeline on concrete inputs. -/
def collab0 : Collab where
  getHTMLSerializer := fun _ _ _ =>
    Except.ok { docinfo := { doctype := "" }, payload := [104] }
  merge := fun _ _ => none
  renderTiles := fun _ t => t
  substituteESILinksStr := fun s => s
  substituteESILinksBytes := fun l => l.flatten
  etreeTostring := fun _ => "tree-xml"
  htmlTostring := fun _ => "tree-html"
  reprChunks := fun _ => "list-of-bytes"
  encodeChar := fun _ ch => if ch.toNat < 128 then some [ch.toNat] else none
  safeBytesStr := fun s => s.data.map (fun ch => ch.toNat)

/-- A collaborator instantiation whose parse fails. -/
def collabFail : Collab :=
  { collab0 with getHTMLSerializer := fun _ _ _ => Except.error "parse error" }

/-- With fuel 0, the replacement scan returns its input unchanged. -/
lemma replaceAllGoZero (p r s : Bytes) : replaceAllGo p r 0 s = s := by
  cases s <;> simp [replaceAllGo]

/-- The replacement scan of the empty list is empty. -/
lemma replaceAllGoNil (p r : Bytes) (fuel : Nat) : replaceAllGo p r fuel [] = [] := by
  cases fuel <;> simp [replaceAllGo]

/-- An occurrence inside a :: l is either an occurrence at the head or an
occurrence inside l. -/
lemma occSplit {p : Bytes} {a : Nat} {l : Bytes} (h : p <:+: a :: l) :
    p <+: a :: l ∨ p <:+: l := by
  obtain ⟨s, t, hst⟩ := h
  cases s with
  | nil =>
    left
    exact ⟨t, by simpa using hst⟩
  | cons b s2 =>
    right
    simp only [List.cons_append, List.append_assoc] at hst
    injection hst with h1 h2
    exact ⟨s2, t, by simpa [List.append_assoc] using h2⟩

/-- If a nonempty final segment v of the pattern p is a prefix of the
replacement scan's output (with single replacement character cch not
occurring in p), then v was already a prefix of the input: the scan never
manufactures a partial pattern occurrence at the front of its output. -/
lemma prefixKeeps {p : Bytes} {cch : Nat} (hc : cch ∉ p) :
    ∀ (fuel : Nat) (s u v : Bytes), u ++ v = p → v ≠ [] →
      v <+: replaceAllGo p [cch] fuel s → v <+: s := by
  intro fuel
  induction fuel with
  | zero =>
    intro s u v hp hv h
    rwa [replaceAllGoZero] at h
  | succ n ih =>
    intro s u v hp hv h
    cases s with
    | nil =>
      rwa [replaceAllGoNil] at h
    | cons a t =>
      by_cases hm : p.isPrefixOf (a :: t)
      · simp only [replaceAllGo, if_pos hm, List.singleton_append] at h
        cases v with
        | nil => exact absurd rfl hv
        | cons b v2 =>
          have hbc : b = cch := (List.cons_prefix_cons.mp h).1
          have hbp : b ∈ p := by
            rw [← hp]
            exact List.mem_append.mpr (Or.inr (List.mem_cons_self b v2))
          rw [hbc] at hbp
          exact absurd hbp hc
      · simp only [replaceAllGo, if_neg hm] at h
        cases v with
        | nil => exact absurd rfl hv
        | cons b v2 =>
          obtain ⟨hba, hpre⟩ := List.cons_prefix_cons.mp h
          by_cases h2 : v2 = []
          · subst h2
            exact List.cons_prefix_cons.mpr ⟨hba, List.nil_prefix⟩
          · have hchain : (u ++ [b]) ++ v2 = p := by
              rw [List.append_assoc, List.singleton_append]
              exact hp
            have hkeep := ih t (u ++ [b]) v2 hchain h2 hpre
            exact List.cons_prefix_cons.mpr ⟨hba, hkeep⟩

/-- The central property behind the carriage-return normalization: after
replacing every occurrence of a nonempty pattern p by a single character
cch that does not occur in p, the output contains no occurrence of p. -/
lemma noOccurrence {p : Bytes} {cch : Nat} (hp : p ≠ []) (hc : cch ∉ p) :
    ∀ (fuel : Nat) (s : Bytes), s.length ≤ fuel →
      ¬ p <:+: replaceAllGo p [cch] fuel s := by
  intro fuel
  induction fuel with
  | zero =>
    intro s hs h
    have hsnil : s = [] := List.eq_nil_of_length_eq_zero (Nat.le_zero.mp hs)
    subst hsnil
    rw [replaceAllGoNil] at h
    exact hp (List.infix_nil.mp h)
  | succ n ih =>
    intro s hs h
    cases s with
    | nil =>
      rw [replaceAllGoNil] at h
      exact hp (List.infix_nil.mp h)
    | cons a t =>
      have ht : t.length ≤ n := by
        simpa using hs
      by_cases hm : p.isPrefixOf (a :: t)
      · simp only [replaceAllGo, if_pos hm, List.singleton_append] at h
        rcases occSplit h with h1 | h1
        · cases p with
          | nil => exact hp rfl
          | cons b p2 =>
            have hbc : b = cch := (List.cons_prefix_cons.mp h1).1
            apply hc
            rw [← hbc]
            exact List.mem_cons_self b p2
        · have hplen : 0 < p.length := List.length_pos.mpr hp
          have hdrop : ((a :: t).drop p.length).length ≤ n := by
            simp only [List.length_drop, List.length_cons]
            omega
          exact ih _ hdrop h1
      · simp only [replaceAllGo, if_neg hm] at h
        rcases occSplit h with h1 | h1
        · cases p with
          | nil => exact hp rfl
          | cons b p2 =>
            obtain ⟨hba, hpre⟩ := List.cons_prefix_cons.mp h1
            by_cases h2 : p2 = []
            · subst h2
              exact hm (List.isPrefixOf_iff_prefix.mpr
                (List.cons_prefix_cons.mpr ⟨hba, List.nil_prefix⟩))
            · have hkeep := prefixKeeps hc n t [b] p2 (by simp) h2 hpre
              exact hm (List.isPrefixOf_iff_prefix.mpr
                (List.cons_prefix_cons.mpr ⟨hba, hkeep⟩))
        · exact ih t ht h1

/-- Claim C5: for every byte chunk, ParseXML's normalization (the inner
replacement of the encoded carriage-return-plus-linefeed b"&#13;\n" by
b"\n" followed by the replacement of every remaining encoded carriage
return b"&#13;" by b"\n") yields a chunk with no occurrence of the
encoded carriage-return sequence b"&#13;". -/
theorem spec_c5 : ∀ item : Bytes, ¬ crBytes <:+: normalizeChunk item := by
  intro item
  unfold normalizeChunk replaceAll
  have hp : crBytes ≠ [] := by decide
  have hc : (10 : Nat) ∉ crBytes := by decide
  simpa [newlineBytes] using
    noOccurrence hp hc _ (replaceAllGo crlfBytes newlineBytes
      (safe_bytes item).length (safe_bytes item)) (le_refl _)

/-- A request with the disabled flag set and the enabled flag clear, the
edge header "true". -/
def reqC2 : Request :=
  { disabled := true, enabled := false, merged := false, esiHeader := some "true",
    response := { contentType := some "text/html", contentEncoding := none, xEsi := none },
    log := [] }

/-- Claim C2: with the disabled flag true and the enabled flag false, the
Parse, Panel-Merge and Tile-Inclusion stages each return nothing and leave
the request state unchanged, while the Edge-Directive stage still returns
the substituted string whenever the edge header lowers to "true". -/
theorem spec_c2 (c : Collab) (pretty_print : Bool) (req : Request)
    (result : List Bytes) (r r2 r3 : DocRepr) (encoding : String)
    (hd : req.disabled = true) (he : req.enabled = false) :
    ParseXML.transformIterable c pretty_print req result encoding = (none, req) ∧
    MergePanels.transformIterable c req r encoding = (none, req) ∧
    IncludeTiles.transformIterable c req r2 encoding = (none, req) ∧
    (pyLower (req.esiHeader.getD "false") = pyLower "true" →
      (ESIRender.transformIterable c req r3 encoding).1 =
        some (c.substituteESILinksStr (pyStr c r3))) := by
  refine ⟨?_, ?_, ?_, ?_⟩
  · simp [ParseXML.transformIterable, hd]
  · simp [MergePanels.transformIterable, he]
  · simp [IncludeTiles.transformIterable, he]
  · intro hh
    simp only [ESIRender.transformIterable, hh, ne_eq, not_true_eq_false, if_false]
    split <;> rfl

/-- Witness for C2 at a concrete disabled request with the edge header
"true". -/
theorem spec_c2_witness :
    ParseXML.transformIterable collab0 false reqC2 [[104]] "utf-8" = (none, reqC2) ∧
    MergePanels.transformIterable collab0 reqC2 (DocRepr.chunks [[104]]) "utf-8" =
      (none, reqC2) ∧
    IncludeTiles.transformIterable collab0 reqC2 (DocRepr.chunks [[104]]) "utf-8" =
      (none, reqC2) ∧
    (ESIRender.transformIterable collab0 reqC2 (DocRepr.chunks [[104]]) "utf-8").1 =
      some (collab0.substituteESILinksStr (pyStr collab0 (DocRepr.chunks [[104]]))) := by
  have h := spec_c2 collab0 false reqC2 [[104]] (DocRepr.chunks [[104]])
    (DocRepr.chunks [[104]]) (DocRepr.chunks [[104]]) "utf-8" rfl rfl
  exact ⟨h.1, h.2.1, h.2.2.1, h.2.2.2 (by decide)⟩

/-- The tree collab0's parser returns. -/
def treeC3 : Tree := { docinfo := { doctype := "" }, payload := [104] }

/-- A fresh request whose response is HTML and uncompressed. -/
def reqC3 : Request :=
  { disabled := false, enabled := false, merged := false, esiHeader := none,
    response := { contentType := some "text/html", contentEncoding := none, xEsi := none },
    log := [] }

/-- Claim C3: when the guards pass, the Parse Stage on a successful parse
sets the enabled flag and returns the new parsed representation (with the
serialization strategy chosen by the CDATA test), and on a parse failure
returns nothing, leaves the flags untouched and appends the error to the
log. -/
theorem spec_c3 (c : Collab) (pretty_print : Bool) (req : Request)
    (result : List Bytes) (encoding : String)
    (hd : req.disabled = false)
    (ct : String) (hct : req.response.contentType = some ct)
    (hstart : pyStartsWith ct "text/html" = true)
    (hce : isCompressive req.response.contentEncoding = false) :
    (∀ tree, c.getHTMLSerializer pretty_print encoding (parseIterable result) =
        Except.ok tree →
      ParseXML.transformIterable c pretty_print req result encoding =
        (some (if (parseIterable result).any (fun item => decide (cdataBytes <:+: item))
               then { tree := tree, serializer := SerStrategy.htmlStyle }
               else { tree := tree, serializer := SerStrategy.xml }),
         { req with enabled := true })) ∧
    (∀ e, c.getHTMLSerializer pretty_print encoding (parseIterable result) =
        Except.error e →
      ParseXML.transformIterable c pretty_print req result encoding =
        (none, { req with log := req.log ++ [e] })) := by
  constructor
  · intro tree hok
    simp [ParseXML.transformIterable, hd, hct, hstart, hce, hok]
  · intro e herr
    simp [ParseXML.transformIterable, hd, hct, hstart, hce, herr]

/-- Witness for C3: a successful parse on a fresh HTML request, and a
failing parse that only logs. -/
theorem spec_c3_witness :
    (ParseXML.transformIterable collab0 false reqC3 [[104, 105]] "utf-8" =
      (some (if (parseIterable [[104, 105]]).any (fun item => decide (cdataBytes <:+: item))
             then { tree := treeC3, serializer := SerStrategy.htmlStyle }
             else { tree := treeC3, serializer := SerStrategy.xml }),
       { reqC3 with enabled := true })) ∧
    (ParseXML.transformIterable collabFail false reqC3 [[104, 105]] "utf-8" =
      (none, { reqC3 with log := reqC3.log ++ ["parse error"] })) := by
  constructor
  · exact (spec_c3 collab0 false reqC3 [[104, 105]] "utf-8" rfl "text/html" rfl
      (by decide) (by decide)).1 treeC3 rfl
  · exact (spec_c3 collabFail false reqC3 [[104, 105]] "utf-8" rfl "text/html" rfl
      (by decide) (by decide)).2 "parse error" rfl

/-- Claim C4: the Edge-Directive stage's iterable entry point returns
nothing and leaves the request (hence the X-Esi header) untouched when the
edge header does not lower to "true"; when it does, the stage returns the
substituted string and sets X-Esi to "1" exactly when the substitution
changed the flattened input string. -/
theorem spec_c4 (c : Collab) (req : Request) (r : DocRepr) (encoding : String) :
    (pyLower (req.esiHeader.getD "false") ≠ pyLower "true" →
      ESIRender.transformIterable c req r encoding = (none, req)) ∧
    (pyLower (req.esiHeader.getD "false") = pyLower "true" →
      ESIRender.transformIterable c req r encoding =
        (some (c.substituteESILinksStr (pyStr c r)),
         if c.substituteESILinksStr (pyStr c r) ≠ pyStr c r
         then { req with response := { req.response with xEsi := some "1" } }
         else req)) := by
  constructor
  · intro hh
    simp [ESIRender.transformIterable, hh]
  · intro hh
    simp only [ESIRender.transformIterable, hh, ne_eq, not_true_eq_false, if_false]
    split <;> rfl

/-- A request with no edge header. -/
def reqEsiOff : Request :=
  { disabled := false, enabled := false, merged := false, esiHeader := none,
    response := { contentType := some "text/html", contentEncoding := none, xEsi := none },
    log := [] }

/-- A request with the edge header "True" (case-insensitive match). -/
def reqEsiOn : Request :=
  { disabled := false, enabled := false, merged := false, esiHeader := some "True",
    response := { contentType := some "text/html", contentEncoding := none, xEsi := none },
    log := [] }

/-- A collaborator instantiation whose ESI substitution changes the
string. -/
def collabSub : Collab :=
  { collab0 with substituteESILinksStr := fun _ => "substituted" }

/-- Witness for C4: the absent-header case returns nothing, and the
"True"-header case with a changing substitution sets X-Esi to "1". -/
theorem spec_c4_witness :
    ESIRender.transformIterable collabSub reqEsiOff (DocRepr.chunks [[104]]) "utf-8" =
      (none, reqEsiOff) ∧
    ESIRender.transformIterable collabSub reqEsiOn (DocRepr.chunks [[104]]) "utf-8" =
      (some (collabSub.substituteESILinksStr (pyStr collabSub (DocRepr.chunks [[104]]))),
       if collabSub.substituteESILinksStr (pyStr collabSub (DocRepr.chunks [[104]])) ≠
           pyStr collabSub (DocRepr.chunks [[104]])
       then { reqEsiOn with response := { reqEsiOn.response with xEsi := some "1" } }
       else reqEsiOn) := by
  constructor
  · exact (spec_c4 collabSub reqEsiOff (DocRepr.chunks [[104]]) "utf-8").1 (by decide)
  · exact (spec_c4 collabSub reqEsiOn (DocRepr.chunks [[104]]) "utf-8").2 (by decide)

/-- Claim C6: when the guards pass, the parse succeeds and some accepted,
normalized chunk contains the literal b"<![CDATA[" marker, the returned
representation's serialization strategy is the HTML-style one. -/
theorem spec_c6 (c : Collab) (pretty_print : Bool) (req : Request)
    (result : List Bytes) (encoding : String)
    (hd : req.disabled = false)
    (ct : String) (hct : req.response.contentType = some ct)
    (hstart : pyStartsWith ct "text/html" = true)
    (hce : isCompressive req.response.contentEncoding = false)
    (tree : Tree)
    (hok : c.getHTMLSerializer pretty_print encoding (parseIterable result) =
      Except.ok tree)
    (hcdata : (parseIterable result).any (fun item => decide (cdataBytes <:+: item)) = true) :
    (ParseXML.transformIterable c pretty_print req result encoding).1 =
      some { tree := tree, serializer := SerStrategy.htmlStyle } := by
  simp [ParseXML.transformIterable, hd, hct, hstart, hce, hok, hcdata]

/-- Witness for C6: a chunk containing b"<![CDATA[" forces HTML-style
serialization. -/
theorem spec_c6_witness :
    (ParseXML.transformIterable collab0 false reqC3
      [[60, 33, 91, 67, 68, 65, 84, 65, 91, 104]] "utf-8").1 =
      some { tree := treeC3, serializer := SerStrategy.htmlStyle } :=
  spec_c6 collab0 false reqC3 [[60, 33, 91, 67, 68, 65, 84, 65, 91, 104]] "utf-8"
    rfl "text/html" rfl (by decide) (by decide) treeC3 rfl (by decide)

/-- Claim C8: when the enabled flag is set and the layout-merge
collaborator returns the None sentinel, the Panel-Merge stage returns
nothing and leaves the request state (in particular the merged flag)
unchanged. -/
theorem spec_c8 (c : Collab) (req : Request) (x : XMLSer) (encoding : String)
    (he : req.enabled = true) (hm : c.merge req x.tree = none) :
    MergePanels.transformIterable c req (DocRepr.ser x) encoding = (none, req) := by
  simp [MergePanels.transformIterable, he, hm]

/-- A request whose parse stage has already succeeded. -/
def reqC8 : Request :=
  { disabled := false, enabled := true, merged := false, esiHeader := none,
    response := { contentType := some "text/html", contentEncoding := none, xEsi := none },
    log := [] }

/-- A parsed representation for the merge witness. -/
def serC8 : XMLSer := { tree := treeC3, serializer := SerStrategy.xml }

/-- Witness for C8 with the no-layout collaborator. -/
theorem spec_c8_witness :
    MergePanels.transformIterable collab0 reqC8 (DocRepr.ser serC8) "utf-8" =
      (none, reqC8) :=
  spec_c8 collab0 reqC8 serC8 "utf-8" rfl rfl

/-- Claim C10: the Edge-Directive stage's text entry point, when the edge
header lowers to "true", delegates to the substitution collaborator the
byte string obtained by encoding the text with error mode "ignore"
(unrepresentable characters dropped, never raising), and in both header
cases the request — hence the X-Esi response header — is unchanged. -/
theorem spec_c10 (c : Collab) (req : Request) (result : String) (encoding : String) :
    (pyLower (req.esiHeader.getD "false") ≠ pyLower "true" →
      ESIRender.transformUnicode c req result encoding = (none, req)) ∧
    (pyLower (req.esiHeader.getD "false") = pyLower "true" →
      ESIRender.transformUnicode c req result encoding =
        (some (c.substituteESILinksBytes [ESIRender.encodeIgnore c encoding result]),
         req)) := by
  constructor
  · intro hh
    simp [ESIRender.transformUnicode, hh]
  · intro hh
    simp [ESIRender.transformUnicode, hh]

/-- Witness for C10 on a string with a character the target encoding
cannot represent. -/
theorem spec_c10_witness :
    ESIRender.transformUnicode collab0 reqEsiOn "hé" "ascii" =
      (some (collab0.substituteESILinksBytes
        [ESIRender.encodeIgnore collab0 "ascii" "hé"]), reqEsiOn) :=
  (spec_c10 collab0 reqEsiOn "hé" "ascii").2 (by decide)

/-- Flag order is reflexive. -/
lemma flagLeRefl (r : Request) : flagLe r r := ⟨le_refl _, le_refl _, le_refl _⟩

/-- Flag order is transitive. -/
lemma flagLeTrans {a b c : Request} (h1 : flagLe a b) (h2 : flagLe b c) : flagLe a c :=
  ⟨le_trans h1.1 h2.1, le_trans h1.2.1 h2.2.1, le_trans h1.2.2 h2.2.2⟩

/-- ParseXML.transformIterable never lowers a flag. -/
lemma monoParseIter (c : Collab) (pp : Bool) (req : Request) (result : List Bytes)
    (enc : String) : flagLe req (ParseXML.transformIterable c pp req result enc).2 := by
  unfold ParseXML.transformIterable
  split
  · exact flagLeRefl req
  · split
    · exact flagLeRefl req
    · split
      · exact flagLeRefl req
      · split
        · exact flagLeRefl req
        · dsimp only
          split
          · exact ⟨le_refl _, Bool.le_true _, le_refl _⟩
          · exact ⟨le_refl _, le_refl _, le_refl _⟩

/-- ParseXML.transformBytes never lowers a flag. -/
lemma monoParseBytes (c : Collab) (pp : Bool) (req : Request) (b : Bytes)
    (enc : String) : flagLe req (ParseXML.transformBytes c pp req b enc).2 :=
  monoParseIter c pp req [b] enc

/-- ParseXML.transformUnicode never lowers a flag. -/
lemma monoParseUnicode (c : Collab) (pp : Bool) (req : Request) (s : String)
    (enc : String) : flagLe req (ParseXML.transformUnicode c pp req s enc).2 :=
  monoParseIter c pp req [c.safeBytesStr s] enc

/-- MergePanels.transformIterable never lowers a flag. -/
lemma monoMergeIter (c : Collab) (req : Request) (r : DocRepr) (enc : String) :
    flagLe req (MergePanels.transformIterable c req r enc).2 := by
  unfold MergePanels.transformIterable
  split
  · exact flagLeRefl req
  · split
    all_goals try exact flagLeRefl req
    split
    · exact flagLeRefl req
    · dsimp only
      split
      · exact ⟨le_refl _, le_refl _, Bool.le_true _⟩
      · exact ⟨le_refl _, le_refl _, Bool.le_true _⟩

/-- IncludeTiles.transformIterable never lowers a flag. -/
lemma monoTilesIter (c : Collab) (req : Request) (r : DocRepr) (enc : String) :
    flagLe req (IncludeTiles.transformIterable c req r enc).2 := by
  unfold IncludeTiles.transformIterable
  split
  · exact flagLeRefl req
  · split
    · exact flagLeRefl req
    · exact flagLeRefl req

/-- ESIRender.transformBytes never lowers a flag. -/
lemma monoEsiBytes (c : Collab) (req : Request) (b : Bytes) (enc : String) :
    flagLe req (ESIRender.transformBytes c req b enc).2 := by
  unfold ESIRender.transformBytes
  split
  · exact flagLeRefl req
  · exact flagLeRefl req

/-- ESIRender.transformUnicode never lowers a flag. -/
lemma monoEsiUnicode (c : Collab) (req : Request) (s : String) (enc : String) :
    flagLe req (ESIRender.transformUnicode c req s enc).2 := by
  unfold ESIRender.transformUnicode
  split
  · exact flagLeRefl req
  · exact flagLeRefl req

/-- ESIRender.transformIterable never lowers a flag. -/
lemma monoEsiIter (c : Collab) (req : Request) (r : DocRepr) (enc : String) :
    flagLe req (ESIRender.transformIterable c req r enc).2 := by
  unfold ESIRender.transformIterable
  split
  · exact flagLeRefl req
  · dsimp only
    split
    · exact ⟨le_refl _, le_refl _, le_refl _⟩
    · exact flagLeRefl req

/-- Claim C9: flag monotonicity. Every entry point of every stage, and the
whole chain, only ever moves the disabled, enabled and merged flags
upwards (every flag write in the pipeline writes true): no execution
resets a true flag to false. -/
theorem spec_c9 (c : Collab) (pretty_print : Bool) (req : Request) (b : Bytes)
    (s : String) (result : List Bytes) (r : DocRepr) (encoding : String) :
    flagLe req (DisableParsing.transformBytes req b encoding).2 ∧
    flagLe req (DisableParsing.transformUnicode req s encoding).2 ∧
    flagLe req (DisableParsing.transformIterable req r encoding).2 ∧
    flagLe req (ParseXML.transformBytes c pretty_print req b encoding).2 ∧
    flagLe req (ParseXML.transformUnicode c pretty_print req s encoding).2 ∧
    flagLe req (ParseXML.transformIterable c pretty_print req result encoding).2 ∧
    flagLe req (MergePanels.transformBytes c req b encoding).2 ∧
    flagLe req (MergePanels.transformUnicode c req s encoding).2 ∧
    flagLe req (MergePanels.transformIterable c req r encoding).2 ∧
    flagLe req (IncludeTiles.transformBytes c req b encoding).2 ∧
    flagLe req (IncludeTiles.transformUnicode c req s encoding).2 ∧
    flagLe req (IncludeTiles.transformIterable c req r encoding).2 ∧
    flagLe req (ESIRender.transformBytes c req b encoding).2 ∧
    flagLe req (ESIRender.transformUnicode c req s encoding).2 ∧
    flagLe req (ESIRender.transformIterable c req r encoding).2 ∧
    flagLe req (runChain c pretty_print req result encoding).2 := by
  refine ⟨⟨Bool.le_true _, le_refl _, le_refl _⟩,
    ⟨Bool.le_true _, le_refl _, le_refl _⟩,
    ⟨Bool.le_true _, le_refl _, le_refl _⟩,
    monoParseBytes c pretty_print req b encoding,
    monoParseUnicode c pretty_print req s encoding,
    monoParseIter c pretty_print req result encoding,
    flagLeRefl req, flagLeRefl req,
    monoMergeIter c req r encoding,
    flagLeRefl req, flagLeRefl req,
    monoTilesIter c req r encoding,
    monoEsiBytes c req b encoding,
    monoEsiUnicode c req s encoding,
    monoEsiIter c req r encoding, ?_⟩
  exact flagLeTrans (monoParseIter c pretty_print req result encoding)
    (flagLeTrans (monoMergeIter c _ _ encoding)
      (flagLeTrans (monoTilesIter c _ _ encoding) (monoEsiIter c _ _ encoding)))

/-- A compressive Content-Encoding value makes the guard fire. -/
lemma helperCompressiveTrue (ce : String) (hmem : ce ∈ compressiveEncodings) :
    isCompressive (some ce) = true := by
  simp only [compressiveEncodings, List.mem_cons, List.mem_singleton,
    List.not_mem_nil, or_false] at hmem
  rcases hmem with rfl | rfl | rfl <;> decide

/-- Under a compressive Content-Encoding, ParseXML.transformIterable is a
no-op whatever the other guards say. -/
lemma helperParseNoopCE (c : Collab) (pp : Bool) (req : Request) (input : List Bytes)
    (enc : String) (hcomp : isCompressive req.response.contentEncoding = true) :
    ParseXML.transformIterable c pp req input enc = (none, req) := by
  unfold ParseXML.transformIterable
  split
  · rfl
  · split
    · rfl
    · split
      · rfl
      · simp [hcomp]

/-- When the Content-Type header is absent or does not start with
"text/html", ParseXML.transformIterable is a no-op. -/
lemma helperParseNoopCT (c : Collab) (pp : Bool) (req : Request) (input : List Bytes)
    (enc : String)
    (hct : ∀ ct, req.response.contentType = some ct →
      pyStartsWith ct "text/html" = false) :
    ParseXML.transformIterable c pp req input enc = (none, req) := by
  unfold ParseXML.transformIterable
  split
  · rfl
  · rcases hr : req.response.contentType with _ | ct
    · simp [hr]
    · simp [hr, hct ct hr]

/-- MergePanels.transformIterable is a no-op on a chunk-list input. -/
lemma helperMergeChunksNoop (c : Collab) (req : Request) (items : List Bytes)
    (enc : String) :
    MergePanels.transformIterable c req (DocRepr.chunks items) enc = (none, req) := by
  cases h : req.enabled <;> simp [MergePanels.transformIterable, h]

/-- IncludeTiles.transformIterable is a no-op on a chunk-list input. -/
lemma helperTilesChunksNoop (c : Collab) (req : Request) (items : List Bytes)
    (enc : String) :
    IncludeTiles.transformIterable c req (DocRepr.chunks items) enc = (none, req) := by
  cases h : req.enabled <;> simp [IncludeTiles.transformIterable, h]

/-- ESIRender.transformIterable is a no-op when the edge header does not
lower to "true". -/
lemma helperEsiOffNoop (c : Collab) (req : Request) (r : DocRepr) (enc : String)
    (hh : pyLower (req.esiHeader.getD "false") ≠ pyLower "true") :
    ESIRender.transformIterable c req r enc = (none, req) := by
  simp [ESIRender.transformIterable, hh]

/-- When the parse stage no-ops (leaving the request untouched) and the
edge header does not lower to "true", the whole chain emits the input
unchanged with the request untouched. -/
lemma helperChainUnchanged (c : Collab) (pp : Bool) (req : Request)
    (input : List Bytes) (enc : String)
    (hparse : ParseXML.transformIterable c pp req input enc = (none, req))
    (hesi : pyLower (req.esiHeader.getD "false") ≠ pyLower "true") :
    runChain c pp req input enc = (DocRepr.chunks input, req) := by
  unfold runChain
  simp only [hparse, helperMergeChunksNoop, helperTilesChunksNoop,
    helperEsiOffNoop c req (DocRepr.chunks input) enc hesi, Option.getD_none]

/-- A request declaring a compressive Content-Encoding whose edge header
is "true". -/
def reqC1cex : Request :=
  { disabled := false, enabled := false, merged := false, esiHeader := some "true",
    response := { contentType := some "text/html", contentEncoding := some "zip",
                  xEsi := none },
    log := [] }

/-- Counterexample to claim C1 as stated: on a request with the
compressive Content-Encoding "zip" but edge header "true", the Parse
Stage does return nothing, yet the chain's output is not the input
unchanged (the Edge-Directive stage flattens the iterable to a string). -/
theorem spec_c1_cex :
    (ParseXML.transformIterable collab0 false reqC1cex [[104, 105]] "utf-8").1 = none ∧
    (runChain collab0 false reqC1cex [[104, 105]] "utf-8").1 ≠
      DocRepr.chunks [[104, 105]] := by
  decide

/-- Claim C1 (amended): for every input whose response declares a
compressive Content-Encoding (zip, deflate or compress), provided the
edge header is absent or does not lower to "true", the Parse Stage
returns nothing and the chain's output equals the input unchanged, with
the request state untouched. -/
theorem spec_c1 (c : Collab) (pretty_print : Bool) (req : Request)
    (input : List Bytes) (encoding : String) (ce : String)
    (hce : req.response.contentEncoding = some ce)
    (hmem : ce ∈ compressiveEncodings)
    (hesi : pyLower (req.esiHeader.getD "false") ≠ pyLower "true") :
    (ParseXML.transformIterable c pretty_print req input encoding).1 = none ∧
    runChain c pretty_print req input encoding = (DocRepr.chunks input, req) := by
  have hcomp : isCompressive req.response.contentEncoding = true := by
    rw [hce]
    exact helperCompressiveTrue ce hmem
  have hparse := helperParseNoopCE c pretty_print req input encoding hcomp
  exact ⟨by rw [hparse], helperChainUnchanged c pretty_print req input encoding hparse hesi⟩

/-- A request declaring the compressive Content-Encoding "zip" with no
edge header. -/
def reqC1w : Request :=
  { disabled := false, enabled := false, merged := false, esiHeader := none,
    response := { contentType := some "text/html", contentEncoding := some "zip",
                  xEsi := none },
    log := [] }

/-- Witness for the amended C1. -/
theorem spec_c1_witness :
    (ParseXML.transformIterable collab0 false reqC1w [[104]] "utf-8").1 = none ∧
    runChain collab0 false reqC1w [[104]] "utf-8" = (DocRepr.chunks [[104]], reqC1w) :=
  spec_c1 collab0 false reqC1w [[104]] "utf-8" "zip" rfl (by decide) (by decide)

/-- A request with a non-HTML Content-Type whose edge header is "true". -/
def reqC7cex : Request :=
  { disabled := false, enabled := false, merged := false, esiHeader := some "true",
    response := { contentType := some "text/plain", contentEncoding := none,
                  xEsi := none },
    log := [] }

/-- Counterexample to claim C7 as stated: on a request whose Content-Type
is "text/plain" but whose edge header is "true", the Parse Stage does
return nothing, yet the chain's output is not the input unchanged. -/
theorem spec_c7_cex :
    (ParseXML.transformIterable collab0 false reqC7cex [[104, 105]] "utf-8").1 = none ∧
    (runChain collab0 false reqC7cex [[104, 105]] "utf-8").1 ≠
      DocRepr.chunks [[104, 105]] := by
  decide

/-- Claim C7 (amended): for every input whose Content-Type response header
is absent or does not start with "text/html", provided the edge header is
absent or does not lower to "true", the Parse Stage returns nothing and
the chain's output equals the input unchanged, with the request state
untouched. -/
theorem spec_c7 (c : Collab) (pretty_print : Bool) (req : Request)
    (input : List Bytes) (encoding : String)
    (hct : ∀ ct, req.response.contentType = some ct →
      pyStartsWith ct "text/html" = false)
    (hesi : pyLower (req.esiHeader.getD "false") ≠ pyLower "true") :
    (ParseXML.transformIterable c pretty_print req input encoding).1 = none ∧
    runChain c pretty_print req input encoding = (DocRepr.chunks input, req) := by
  have hparse := helperParseNoopCT c pretty_print req input encoding hct
  exact ⟨by rw [hparse], helperChainUnchanged c pretty_print req input encoding hparse hesi⟩

/-- A request with Content-Type "text/plain" and no edge header. -/
def reqC7w : Request :=
  { disabled := false, enabled := false, merged := false, esiHeader := none,
    response := { contentType := some "text/plain", contentEncoding := none,
                  xEsi := none },
    log := [] }

/-- Witness for the amended C7. -/
theorem spec_c7_witness :
    (ParseXML.transformIterable collab0 false reqC7w [[104]] "utf-8").1 = none ∧
    runChain collab0 false reqC7w [[104]] "utf-8" = (DocRepr.chunks [[104]], reqC7w) :=
  spec_c7 collab0 false reqC7w [[104]] "utf-8"
    (by
      intro ct h
      have h2 : some "text/plain" = some ct := h
      injection h2 with h3
      rw [← h3]
      decide)
    (by decide)

end PloneBlocks
